import Mathlib

/-!
Shallow embedding of `combine_files.py`, a script that merges the images and
PDF files of a directory into one output PDF.

The filesystem is modelled explicitly: a directory is a list of entries, each
entry has a name, a flag saying whether it is itself a directory, and a
content record giving the two ways the script may interpret its bytes
(decoding as an image with PIL, parsing as a PDF with pypdf), each of which
may fail.  The external libraries are modelled by their observable contract:
PIL decodes to an image with a color mode, converts color modes, and encodes
one image as a one-page PDF at a given resolution; pypdf exposes the page
list of a parsed PDF and accumulates pages into a writer.  The final write is
recorded as an explicit event so that theorems can speak about when the
output file is touched.
-/

namespace CombineFiles

/-- Color model of a decoded raster image (the PIL `mode`). -/
inductive ColorMode where
  | RGB
  | RGBA
  | L
  | P
  | CMYK
deriving DecidableEq, Repr

/-- A decoded raster image as produced by PIL `Image.open`: a color mode plus
opaque pixel data. -/
structure PILImage where
  mode : ColorMode
  pixels : Nat
deriving DecidableEq, Repr

/-- One page of the output document: either a page read from a source PDF
(identified opaquely) or the rasterization of an image at some resolution. -/
inductive Page where
  | fromSource (id : Nat)
  | raster (image : PILImage) (resolution : Int)
deriving DecidableEq, Repr

/-- The two views the script may take of an entry's bytes: decoding them as an
image (`none` models a decode failure) and parsing them as a PDF with a list
of pages in internal order (`none` models a parse failure). -/
structure Content where
  asImage : Option PILImage
  asPdfPages : Option (List Page)
deriving DecidableEq, Repr

/-- An immediate entry of the input directory, as yielded by `iterdir()`:
its final name component, whether it is itself a directory, and its bytes. -/
structure Entry where
  name : String
  isDirectory : Bool
  content : Content
deriving DecidableEq, Repr

/-- The input directory: its final name component (`directory.name`) and its
immediate entries. -/
structure Directory where
  name : String
  entries : List Entry
deriving DecidableEq, Repr

/-- The `save_path` argument: its textual path together with the result of the
`save_path.is_dir()` check at call time. -/
structure SavePath where
  path : String
  isDir : Bool
deriving DecidableEq, Repr

/-- The exceptions the pipeline can raise: opening a directory as a file,
an image decode failure, a PDF parse failure, indexing an empty page list,
and reading an empty buffer. -/
inductive PipelineError where
  | isADirectory (path : String)
  | imageDecodeError (path : String)
  | pdfReadError (path : String)
  | indexError (path : String)
  | emptyBuffer
deriving DecidableEq, Repr

/-- Python `str.lower()` restricted to the ASCII folding used on extensions. -/
def lower (s : String) : String := String.mk (s.data.map Char.toLower)

/-- Index of the last `'.'` in a list of characters (Python `str.rfind('.')`,
returning `none` instead of `-1` when absent). -/
def rfindDot : List Char → Option Nat
  | [] => none
  | c :: rest =>
    match rfindDot rest with
    | some i => some (i + 1)
    | none => if c = '.' then some 0 else none

/-- `pathlib.PurePath.suffix` of a final name component: the substring from the
last dot, provided that dot is neither the first nor the last character;
otherwise the empty string. -/
def Path.suffix (name : String) : String :=
  match rfindDot name.data with
  | none => ""
  | some i =>
    if 0 < i ∧ i < name.data.length - 1 then String.mk (name.data.drop i) else ""

/-- The extension allow-list of `get_input_files`. -/
def valid_extensions : List String := [".png", ".jpeg", ".jpg", ".pdf"]

/-- The filter applied to each entry: `file.suffix.lower() in valid_extensions`. -/
def matchesExtension (file : Entry) : Bool :=
  decide (lower (Path.suffix file.name) ∈ valid_extensions)

/-- The order on same-directory entries used by `sorted`: comparison of the
full paths, which for entries of one directory is comparison of the names. -/
def entryLe (a b : Entry) : Prop := a.name ≤ b.name

instance : DecidableRel entryLe :=
  fun a b => decidable_of_iff (a.name.toList ≤ b.name.toList) String.le_iff_toList_le.symm

/-- `get_input_files`: keep the immediate entries whose lowercased suffix is in
the allow-list and return them sorted. -/
def get_input_files (directory : Directory) : List Entry :=
  List.insertionSort entryLe (directory.entries.filter matchesExtension)

namespace Image

/-- PIL `Image.open` on a path: opening a directory raises, undecodable bytes
raise, otherwise the decoded image is returned. -/
def open' (file : Entry) : Except PipelineError PILImage :=
  if file.isDirectory then Except.error (PipelineError.isADirectory file.name)
  else
    match file.content.asImage with
    | none => Except.error (PipelineError.imageDecodeError file.name)
    | some image => Except.ok image

end Image

/-- PIL `image.convert("RGB")`: the color mode becomes RGB. -/
def PILImage.convert_RGB (image : PILImage) : PILImage := { image with mode := ColorMode.RGB }

/-- A PDF document as encoded by PIL `save(buffer, "PDF", resolution=dpi)` from
one image: the saved image and the resolution metadata. -/
structure EncodedImagePdf where
  image : PILImage
  resolution : Int
deriving DecidableEq, Repr

/-- An in-memory byte buffer (`io.BytesIO`): its PDF content, if any has been
written, and the current stream position (`0` is the start; writing leaves the
position at the end of the written data, modelled as `1`). -/
structure BytesIO where
  doc : Option EncodedImagePdf
  pos : Nat
deriving DecidableEq, Repr

/-- `io.BytesIO()`: an empty buffer positioned at its start. -/
def BytesIO.empty : BytesIO := { doc := none, pos := 0 }

/-- `image.save(buffer, "PDF", resolution=dpi)`: encode the image as a
single-image PDF into the buffer, leaving the position at the end. -/
def BytesIO.savePdf (_b : BytesIO) (image : PILImage) (resolution : Int) : BytesIO :=
  { doc := some { image := image, resolution := resolution }, pos := 1 }

/-- `buffer.seek(p)`. -/
def BytesIO.seek (b : BytesIO) (p : Nat) : BytesIO := { doc := b.doc, pos := p }

/-- `convert_image_to_pdf`: open the image, convert it to RGB, save it as a
PDF into a fresh buffer, rewind the buffer and return it. -/
def convert_image_to_pdf (image_path : Entry) (image_dpi : Int) :
    Except PipelineError BytesIO :=
  match Image.open' image_path with
  | Except.error e => Except.error e
  | Except.ok image =>
    let pdf_bytes := BytesIO.empty
    let pdf_bytes := pdf_bytes.savePdf image.convert_RGB image_dpi
    let pdf_bytes := pdf_bytes.seek 0
    Except.ok pdf_bytes

namespace PdfReader

/-- pypdf `PdfReader(str(file))`: opening a directory raises, unparsable bytes
raise, otherwise the page list of the document in its internal order. -/
def ofFile (file : Entry) : Except PipelineError (List Page) :=
  if file.isDirectory then Except.error (PipelineError.isADirectory file.name)
  else
    match file.content.asPdfPages with
    | none => Except.error (PipelineError.pdfReadError file.name)
    | some pages => Except.ok pages

/-- pypdf `PdfReader(buffer)` on a buffer holding a PIL single-image PDF:
an empty buffer raises, otherwise the document has exactly the one page
encoding that image at that resolution. -/
def ofBuffer (b : BytesIO) : Except PipelineError (List Page) :=
  match b.doc with
  | none => Except.error PipelineError.emptyBuffer
  | some d => Except.ok [Page.raster d.image d.resolution]

end PdfReader

/-- pypdf `PdfWriter`: the accumulated output pages, in insertion order. -/
structure PdfWriter where
  pages : List Page
deriving DecidableEq, Repr

/-- `pdf_writer.add_page(page)`. -/
def PdfWriter.add_page (w : PdfWriter) (p : Page) : PdfWriter := { pages := w.pages ++ [p] }

/-- The body of the `for file in input_files` loop of `convert_files_to_pdf`:
a `.pdf`-suffixed entry has all its pages appended; any other entry is
rasterized and the first page of the resulting buffer is appended. -/
def processFile (pdf_writer : PdfWriter) (file : Entry) (image_dpi : Int) :
    Except PipelineError PdfWriter :=
  if lower (Path.suffix file.name) = ".pdf" then
    match PdfReader.ofFile file with
    | Except.error e => Except.error e
    | Except.ok pages => Except.ok (pages.foldl PdfWriter.add_page pdf_writer)
  else
    match convert_image_to_pdf file image_dpi with
    | Except.error e => Except.error e
    | Except.ok pdf_bytes =>
      match PdfReader.ofBuffer pdf_bytes with
      | Except.error e => Except.error e
      | Except.ok pages =>
        match pages[0]? with
        | none => Except.error (PipelineError.indexError file.name)
        | some page => Except.ok (pdf_writer.add_page page)

/-- The whole `for` loop, threading the writer through the scanned files and
stopping at the first raised error. -/
def runFiles (input_files : List Entry) (image_dpi : Int) (pdf_writer : PdfWriter) :
    Except PipelineError PdfWriter :=
  match input_files with
  | [] => Except.ok pdf_writer
  | file :: rest =>
    match processFile pdf_writer file image_dpi with
    | Except.error e => Except.error e
    | Except.ok w => runFiles rest image_dpi w

/-- A write of a serialized document to a path (the `save_path.open("wb")`
plus `pdf_writer.write(output)` step). -/
structure WriteEvent where
  path : String
  pages : List Page
deriving DecidableEq, Repr

/-- `DEFAULT_OUTPUT_FILENAME.format(name)`, i.e. `"{}_combined_output.pdf"`. -/
def DEFAULT_OUTPUT_FILENAME_format (name : String) : String :=
  name ++ "_combined_output.pdf"

/-- The save-path resolution at the top of `convert_files_to_pdf`: if
`save_path.is_dir()`, append the default output filename. -/
def resolve_save_path (directory : Directory) (save_path : SavePath) : String :=
  if save_path.isDir then
    save_path.path ++ "/" ++ DEFAULT_OUTPUT_FILENAME_format directory.name
  else save_path.path

/-- `convert_files_to_pdf`: resolve the save path, scan the directory, run the
page-collection loop, and only on its success perform the single write of the
assembled document.  The first component records the writes performed, the
second the returned path or the raised error. -/
def convert_files_to_pdf (directory : Directory) (save_path : SavePath) (image_dpi : Int) :
    List WriteEvent × Except PipelineError String :=
  let resolved := resolve_save_path directory save_path
  let input_files := get_input_files directory
  match runFiles input_files image_dpi { pages := [] } with
  | Except.error e => ([], Except.error e)
  | Except.ok w => ([{ path := resolved, pages := w.pages }], Except.ok resolved)

/-- The pages contributed by one scanned file: for a `.pdf`-suffixed entry all
its pages in internal order, otherwise the single page read back from the
rasterizer's buffer. -/
def filePages (file : Entry) (image_dpi : Int) : Except PipelineError (List Page) :=
  if lower (Path.suffix file.name) = ".pdf" then
    PdfReader.ofFile file
  else
    match convert_image_to_pdf file image_dpi with
    | Except.error e => Except.error e
    | Except.ok pdf_bytes =>
      match PdfReader.ofBuffer pdf_bytes with
      | Except.error e => Except.error e
      | Except.ok pages =>
        match pages[0]? with
        | none => Except.error (PipelineError.indexError file.name)
        | some page => Except.ok [page]

/-- Concatenation of the per-file page contributions, in scan order, stopping
at the first error. -/
def collectPages (image_dpi : Int) : List Entry → Except PipelineError (List Page)
  | [] => Except.ok []
  | file :: rest =>
    match filePages file image_dpi with
    | Except.error e => Except.error e
    | Except.ok ps =>
      match collectPages image_dpi rest with
      | Except.error e => Except.error e
      | Except.ok tl => Except.ok (ps ++ tl)

/-- `str(e)` for the modelled exceptions. -/
def errorMessage : PipelineError → String
  | PipelineError.isADirectory p => "[Errno 21] Is a directory: " ++ p
  | PipelineError.imageDecodeError p => "cannot identify image file " ++ p
  | PipelineError.pdfReadError p => "Stream has ended unexpectedly: " ++ p
  | PipelineError.indexError _ => "list index out of range"
  | PipelineError.emptyBuffer => "Cannot read an empty file"

/-- The parsed command-line arguments: the flags `-i` (input), `-o` (output)
and `--dpi`. -/
structure Args where
  input : Option String
  output : Option String
  dpi : Int
deriving DecidableEq, Repr

/-- Python truthiness of an optional string (`None` and `""` are falsy). -/
def truthy : Option String → Bool
  | none => false
  | some s => decide (s ≠ "")

/-- The `if args.input and args.output` choice between flag values and the two
interactive prompts. -/
def chosen_paths (args : Args) (stdin_input stdin_output : String) : String × String :=
  if truthy args.input && truthy args.output then
    (args.input.getD "", args.output.getD "")
  else (stdin_input, stdin_output)

/-- `main`: choose the input and output paths, run the pipeline inside the
single `try`, and print one line: the success message with the resolved path,
or the catch-all error message with the stringified exception.  The returned
list is the printed output; returning (rather than raising) models the normal
exit in both cases.  The functions `fsDir` and `fsSave` give the directory
and save-path denoted by the chosen path strings. -/
def main (args : Args) (stdin_input stdin_output : String)
    (fsDir : String → Directory) (fsSave : String → SavePath) : List String :=
  let picked := chosen_paths args stdin_input stdin_output
  match convert_files_to_pdf (fsDir picked.1) (fsSave picked.2) args.dpi with
  | (_, Except.ok save_path) => ["PDF created successfully: " ++ save_path]
  | (_, Except.error e) => ["An error occurred: " ++ errorMessage e]

/-- The full path string of a same-directory entry: the directory path, a
separator, and the entry name. -/
def fullPath (base : String) (file : Entry) : String := (base ++ "/") ++ file.name

/-! Concrete inputs used to instantiate the theorems. -/

/-- A decodable non-RGB image. -/
def example_image : PILImage := { mode := ColorMode.RGBA, pixels := 7 }

/-- A readable two-page PDF file named `a.pdf`. -/
def example_pdf_entry : Entry :=
  { name := "a.pdf", isDirectory := false,
    content := { asImage := none, asPdfPages := some [Page.fromSource 0, Page.fromSource 1] } }

/-- A decodable image file named `b.jpg`. -/
def example_img_entry : Entry :=
  { name := "b.jpg", isDirectory := false,
    content := { asImage := some example_image, asPdfPages := none } }

/-- A directory named `photos` holding one image and one PDF, listed out of
sorted order. -/
def example_dir : Directory :=
  { name := "photos", entries := [example_img_entry, example_pdf_entry] }

/-- The same directory with its entries listed in the other iteration order. -/
def example_dir_perm : Directory :=
  { name := "photos", entries := [example_pdf_entry, example_img_entry] }

/-- A directory whose only entry is the two-page PDF. -/
def single_pdf_dir : Directory :=
  { name := "doc", entries := [example_pdf_entry] }

/-- A corrupt image file: its bytes decode neither as an image nor as a PDF. -/
def corrupt_entry : Entry :=
  { name := "b.jpg", isDirectory := false,
    content := { asImage := none, asPdfPages := none } }

/-- A valid image file with the given name. -/
def valid_image_entry (nm : String) : Entry :=
  { name := nm, isDirectory := false,
    content := { asImage := some example_image, asPdfPages := none } }

/-- Three valid images and one corrupt image. -/
def corrupt_dir : Directory :=
  { name := "scans",
    entries := [valid_image_entry "a.png", corrupt_entry,
      valid_image_entry "c.png", valid_image_entry "d.png"] }

/-- A directory whose entries all have non-matching extensions: a text file
and a subdirectory without a matching apparent extension. -/
def no_match_dir : Directory :=
  { name := "misc",
    entries := [{ name := "notes.txt", isDirectory := false,
                  content := { asImage := none, asPdfPages := none } },
                { name := "stuff", isDirectory := true,
                  content := { asImage := none, asPdfPages := none } }] }

/-- A subdirectory whose name carries an apparent `.pdf` extension. -/
def subdir_pdf : Entry :=
  { name := "sub.pdf", isDirectory := true,
    content := { asImage := none, asPdfPages := none } }

/-- A directory containing only that subdirectory. -/
def dir_with_subdir : Directory :=
  { name := "docs", entries := [subdir_pdf] }

/-- A PDF file with an upper-case extension. -/
def upper_pdf_entry : Entry :=
  { name := "X.PDF", isDirectory := false,
    content := { asImage := some example_image, asPdfPages := some [Page.fromSource 5] } }

/-! Helper lemmas. -/

instance : IsTotal Entry entryLe := ⟨fun a b => le_total a.name b.name⟩

instance : IsTrans Entry entryLe := ⟨fun _ _ _ h₁ h₂ => le_trans h₁ h₂⟩

lemma foldl_add_page (ps : List Page) (w : PdfWriter) :
    ps.foldl PdfWriter.add_page w = { pages := w.pages ++ ps } := by
  induction ps generalizing w with
  | nil => simp [PdfWriter.add_page]
  | cons p ps ih => simp [List.foldl, PdfWriter.add_page, ih]

lemma processFile_eq_filePages (w : PdfWriter) (file : Entry) (dpi : Int) :
    processFile w file dpi
      = Except.map (fun ps => { pages := w.pages ++ ps }) (filePages file dpi) := by
  unfold processFile filePages
  split
  · cases hof : PdfReader.ofFile file with
    | error e => simp [Except.map]
    | ok ps => simp [Except.map, foldl_add_page]
  · cases hconv : convert_image_to_pdf file dpi with
    | error e => simp [Except.map]
    | ok buf =>
      cases hb : PdfReader.ofBuffer buf with
      | error e => simp [Except.map, hb]
      | ok pages =>
        cases h0 : pages[0]? with
        | none => simp [Except.map, hb, h0]
        | some page => simp [Except.map, hb, h0, PdfWriter.add_page]

lemma runFiles_eq_collectPages (files : List Entry) (dpi : Int) (w : PdfWriter) :
    runFiles files dpi w
      = Except.map (fun ps => { pages := w.pages ++ ps }) (collectPages dpi files) := by
  induction files generalizing w with
  | nil => simp [runFiles, collectPages, Except.map]
  | cons f rest ih =>
    simp only [runFiles, collectPages, processFile_eq_filePages]
    cases hf : filePages f dpi with
    | error e => simp [Except.map]
    | ok ps =>
      simp only [Except.map]
      rw [ih]
      cases hc : collectPages dpi rest with
      | error e => simp [Except.map]
      | ok tl => simp [Except.map, List.append_assoc]

lemma convert_files_to_pdf_eq (d : Directory) (sp : SavePath) (dpi : Int) :
    convert_files_to_pdf d sp dpi
      = match collectPages dpi (get_input_files d) with
        | Except.error e => ([], Except.error e)
        | Except.ok pages =>
          ([{ path := resolve_save_path d sp, pages := pages }],
            Except.ok (resolve_save_path d sp)) := by
  show (match runFiles (get_input_files d) dpi { pages := [] } with
    | Except.error e => (([] : List WriteEvent), Except.error e)
    | Except.ok w =>
      ([{ path := resolve_save_path d sp, pages := w.pages }],
        Except.ok (resolve_save_path d sp))) = _
  rw [runFiles_eq_collectPages]
  cases collectPages dpi (get_input_files d) with
  | error e => rfl
  | ok pages => simp [Except.map]

lemma get_input_files_perm (d : Directory) :
    (get_input_files d).Perm (d.entries.filter matchesExtension) :=
  List.perm_insertionSort entryLe _

lemma matchesExtension_eq_true_iff (e : Entry) :
    matchesExtension e = true ↔ lower (Path.suffix e.name) ∈ valid_extensions := by
  simp [matchesExtension]

lemma get_input_files_mem (d : Directory) (e : Entry) :
    e ∈ get_input_files d
      ↔ e ∈ d.entries ∧ lower (Path.suffix e.name) ∈ valid_extensions := by
  rw [(get_input_files_perm d).mem_iff, List.mem_filter, matchesExtension_eq_true_iff]

lemma get_input_files_sorted_le (d : Directory) :
    (get_input_files d).Pairwise entryLe :=
  List.sorted_insertionSort entryLe _

lemma string_toList_append (p a : String) : (p ++ a).toList = p.toList ++ a.toList := by
  cases p
  cases a
  rfl

lemma lex_append_left_iff (p x y : List Char) :
    List.Lex (· < ·) (p ++ x) (p ++ y) ↔ List.Lex (· < ·) x y := by
  induction p with
  | nil => simp
  | cons c p ih => simpa [List.Lex.cons_iff] using ih

lemma string_lt_append_left (p a b : String) : p ++ a < p ++ b ↔ a < b := by
  rw [String.lt_iff_toList_lt, String.lt_iff_toList_lt, string_toList_append,
    string_toList_append]
  exact lex_append_left_iff p.toList a.toList b.toList

lemma string_le_append_left (p a b : String) : p ++ a ≤ p ++ b ↔ a ≤ b := by
  constructor
  · intro h
    by_contra hb
    rw [not_le] at hb
    exact absurd h (not_le.mpr ((string_lt_append_left p b a).mpr hb))
  · intro h
    by_contra hb
    rw [not_le] at hb
    exact absurd ((string_lt_append_left p b a).mp hb) (not_lt.mpr h)

lemma fullPath_le_iff (base : String) (a b : Entry) :
    fullPath base a ≤ fullPath base b ↔ entryLe a b :=
  string_le_append_left (base ++ "/") a.name b.name

lemma get_input_files_eq_of_perm (d d' : Directory)
    (hnodup : (d.entries.map Entry.name).Nodup) (hperm : d'.entries.Perm d.entries) :
    get_input_files d' = get_input_files d := by
  have hperm' : (get_input_files d').Perm (get_input_files d) :=
    ((get_input_files_perm d').trans (hperm.filter _)).trans (get_input_files_perm d).symm
  have hnodup_filter : ((d.entries.filter matchesExtension).map Entry.name).Nodup :=
    hnodup.sublist ((List.filter_sublist _).map _)
  have hnodup_d : ((get_input_files d).map Entry.name).Nodup :=
    (((get_input_files_perm d).map Entry.name).nodup_iff).mpr hnodup_filter
  have hnodup_d' : ((get_input_files d').map Entry.name).Nodup :=
    ((hperm'.map Entry.name).nodup_iff).mpr hnodup_d
  have hstrict : ∀ l : List Entry, l.Pairwise entryLe → (l.map Entry.name).Nodup →
      l.Pairwise fun a b => a.name < b.name := by
    intro l hle hnd
    have hne : l.Pairwise fun a b => a.name ≠ b.name := List.pairwise_map.mp hnd
    exact (hle.and hne).imp fun h => lt_of_le_of_ne h.1 h.2
  have hs := hstrict _ (get_input_files_sorted_le d) hnodup_d
  have hs' := hstrict _ (get_input_files_sorted_le d') hnodup_d'
  letI : IsAntisymm Entry fun a b => a.name < b.name :=
    ⟨fun _ _ h₁ h₂ => absurd h₂ (lt_asymm h₁)⟩
  exact List.eq_of_perm_of_sorted hperm' hs' hs

/-! Claim theorems. -/

/-- C1: on every successful run of `convert_files_to_pdf`, the single written
document consists of the concatenation, over the scanned files in the
scanner's sorted order, of each file's contribution: all pages of a
`.pdf`-suffixed file in its internal page order, and exactly the one
rasterized page for any other file. -/
theorem convert_files_to_pdf_page_order :
    (∀ (d : Directory) (sp : SavePath) (dpi : Int) (evs : List WriteEvent) (path : String),
        convert_files_to_pdf d sp dpi = (evs, Except.ok path) →
        ∃ pages : List Page,
          collectPages dpi (get_input_files d) = Except.ok pages
          ∧ evs = [{ path := path, pages := pages }])
    ∧ (∀ (e : Entry) (dpi : Int) (ps : List Page),
        lower (Path.suffix e.name) = ".pdf" → e.isDirectory = false →
        e.content.asPdfPages = some ps → filePages e dpi = Except.ok ps)
    ∧ (∀ (e : Entry) (dpi : Int) (img : PILImage),
        lower (Path.suffix e.name) ≠ ".pdf" → e.isDirectory = false →
        e.content.asImage = some img →
        filePages e dpi = Except.ok [Page.raster img.convert_RGB dpi]) := by
  refine ⟨?_, ?_, ?_⟩
  · intro d sp dpi evs path h
    rw [convert_files_to_pdf_eq] at h
    cases hc : collectPages dpi (get_input_files d) with
    | error e => rw [hc] at h; simp at h
    | ok pages =>
      rw [hc] at h
      simp only [Prod.mk.injEq, Except.ok.injEq] at h
      exact ⟨pages, rfl, by rw [← h.1, h.2]⟩
  · intro e dpi ps hsuf hdir hpdf
    unfold filePages PdfReader.ofFile
    rw [if_pos hsuf, hdir, hpdf]
    rfl
  · intro e dpi img hsuf hdir himg
    unfold filePages convert_image_to_pdf Image.open'
    rw [if_neg hsuf, hdir, himg]
    rfl

/-- C1 witness: a concrete directory with one image and one PDF. -/
theorem convert_files_to_pdf_page_order_witness :
    ∃ pages : List Page,
      collectPages 300 (get_input_files example_dir) = Except.ok pages
      ∧ [({ path := "out/photos_combined_output.pdf",
            pages := [Page.fromSource 0, Page.fromSource 1,
              Page.raster { mode := ColorMode.RGB, pixels := 7 } 300] } : WriteEvent)]
          = [{ path := "out/photos_combined_output.pdf", pages := pages }] :=
  convert_files_to_pdf_page_order.1 example_dir { path := "out", isDir := true } 300
    [{ path := "out/photos_combined_output.pdf",
       pages := [Page.fromSource 0, Page.fromSource 1,
         Page.raster { mode := ColorMode.RGB, pixels := 7 } 300] }]
    "out/photos_combined_output.pdf" rfl

/-- C2: `get_input_files` returns a permutation of exactly the immediate
entries whose lowercased extension is in the allow-list, sorted ascending by
full path string, and (for distinct names) its result does not depend on the
filesystem iteration order. -/
theorem get_input_files_sorted_filter :
    ∀ (d : Directory) (base : String),
      (get_input_files d).Perm (d.entries.filter matchesExtension)
      ∧ (∀ e : Entry, e ∈ get_input_files d
          ↔ e ∈ d.entries ∧ lower (Path.suffix e.name) ∈ valid_extensions)
      ∧ (get_input_files d).Pairwise (fun a b => fullPath base a ≤ fullPath base b)
      ∧ ((d.entries.map Entry.name).Nodup →
          ∀ d' : Directory, d'.entries.Perm d.entries →
            get_input_files d' = get_input_files d) := by
  intro d base
  refine ⟨get_input_files_perm d, fun e => get_input_files_mem d e, ?_, ?_⟩
  · exact (get_input_files_sorted_le d).imp fun h => (fullPath_le_iff base _ _).mpr h
  · intro hnodup d' hperm
    exact get_input_files_eq_of_perm d d' hnodup hperm

/-- C2 witness: permuting the iteration order of a concrete directory leaves
the scanner's result unchanged. -/
theorem get_input_files_sorted_filter_witness :
    get_input_files example_dir_perm = get_input_files example_dir :=
  (get_input_files_sorted_filter example_dir "photos").2.2.2 (by decide)
    example_dir_perm (by decide)

/-- C3: when `save_path` names an existing directory, the resolved save path
is `save_path / "{directory.name}_combined_output.pdf"`; on success that is
both the returned value and the written path, and for output directory `out`
and input directory `photos` it is `out/photos_combined_output.pdf`. -/
theorem resolve_save_path_directory_default :
    (∀ (d : Directory) (p : String),
        resolve_save_path d { path := p, isDir := true }
          = p ++ "/" ++ (d.name ++ "_combined_output.pdf"))
    ∧ (∀ (d : Directory) (sp : SavePath) (dpi : Int) (evs : List WriteEvent) (ret : String),
        convert_files_to_pdf d sp dpi = (evs, Except.ok ret) →
        ret = resolve_save_path d sp
        ∧ ∀ ev ∈ evs, WriteEvent.path ev = resolve_save_path d sp)
    ∧ resolve_save_path { name := "photos", entries := [] } { path := "out", isDir := true }
        = "out/photos_combined_output.pdf" := by
  refine ⟨fun d p => rfl, ?_, by decide⟩
  intro d sp dpi evs ret h
  rw [convert_files_to_pdf_eq] at h
  cases hc : collectPages dpi (get_input_files d) with
  | error e => rw [hc] at h; simp at h
  | ok pages =>
    rw [hc] at h
    simp only [Prod.mk.injEq, Except.ok.injEq] at h
    refine ⟨h.2.symm, ?_⟩
    intro ev hev
    rw [← h.1] at hev
    simp only [List.mem_singleton] at hev
    rw [hev]

/-- C3 witness: a concrete successful run with an existing output directory. -/
theorem resolve_save_path_directory_default_witness :
    "out/photos_combined_output.pdf"
        = resolve_save_path example_dir { path := "out", isDir := true }
    ∧ ∀ ev ∈ ([{ path := "out/photos_combined_output.pdf",
                 pages := [Page.fromSource 0, Page.fromSource 1,
                   Page.raster { mode := ColorMode.RGB, pixels := 7 } 300] }] :
          List WriteEvent),
        WriteEvent.path ev = resolve_save_path example_dir { path := "out", isDir := true } :=
  resolve_save_path_directory_default.2.1 example_dir { path := "out", isDir := true } 300
    [{ path := "out/photos_combined_output.pdf",
       pages := [Page.fromSource 0, Page.fromSource 1,
         Page.raster { mode := ColorMode.RGB, pixels := 7 } 300] }]
    "out/photos_combined_output.pdf" rfl

/-- C4: whenever `convert_files_to_pdf` raises (returns an error), no write
event has occurred, so a pre-existing file at the resolved save path is left
untouched; the single write happens only after all pages are collected. -/
theorem convert_files_to_pdf_no_write_on_error :
    ∀ (d : Directory) (sp : SavePath) (dpi : Int) (e : PipelineError)
      (evs : List WriteEvent),
      convert_files_to_pdf d sp dpi = (evs, Except.error e) → evs = [] := by
  intro d sp dpi e evs h
  rw [convert_files_to_pdf_eq] at h
  cases hc : collectPages dpi (get_input_files d) with
  | error e' =>
    rw [hc] at h
    simp only [Prod.mk.injEq] at h
    exact h.1.symm
  | ok pages => rw [hc] at h; simp at h

/-- C4 witness: one corrupt image among three valid images aborts the run
with an error and no write. -/
theorem convert_files_to_pdf_no_write_on_error_witness :
    convert_files_to_pdf corrupt_dir { path := "out.pdf", isDir := false } 300
        = ([], Except.error (PipelineError.imageDecodeError "b.jpg"))
    ∧ ([] : List WriteEvent) = [] :=
  ⟨rfl, convert_files_to_pdf_no_write_on_error corrupt_dir
    { path := "out.pdf", isDir := false } 300
    (PipelineError.imageDecodeError "b.jpg") [] rfl⟩

/-- C5: for a directory whose only entry is a readable PDF, the output
document has exactly that PDF's pages, in the same order. -/
theorem convert_files_to_pdf_single_pdf_roundtrip :
    ∀ (d : Directory) (sp : SavePath) (dpi : Int) (e : Entry) (ps : List Page),
      d.entries = [e] → e.isDirectory = false →
      lower (Path.suffix e.name) = ".pdf" → e.content.asPdfPages = some ps →
      convert_files_to_pdf d sp dpi
        = ([{ path := resolve_save_path d sp, pages := ps }],
            Except.ok (resolve_save_path d sp)) := by
  intro d sp dpi e ps hentries hdir hsuf hpdf
  have hmatch : matchesExtension e = true := by
    unfold matchesExtension
    rw [hsuf]
    rfl
  have hfiles : get_input_files d = [e] := by
    unfold get_input_files
    rw [hentries]
    simp [List.filter, hmatch]
  have hfp : filePages e dpi = Except.ok ps := by
    unfold filePages PdfReader.ofFile
    rw [if_pos hsuf, hdir, hpdf]
    rfl
  rw [convert_files_to_pdf_eq, hfiles]
  simp [collectPages, hfp]

/-- C5 witness: the concrete two-page PDF alone in a directory. -/
theorem convert_files_to_pdf_single_pdf_roundtrip_witness :
    convert_files_to_pdf single_pdf_dir { path := "combined.pdf", isDir := false } 300
      = ([{ path := resolve_save_path single_pdf_dir { path := "combined.pdf", isDir := false },
            pages := [Page.fromSource 0, Page.fromSource 1] }],
          Except.ok (resolve_save_path single_pdf_dir
            { path := "combined.pdf", isDir := false })) :=
  convert_files_to_pdf_single_pdf_roundtrip single_pdf_dir
    { path := "combined.pdf", isDir := false } 300 example_pdf_entry
    [Page.fromSource 0, Page.fromSource 1] rfl rfl (by decide) rfl

/-- C6: for every decodable image and every DPI, `convert_image_to_pdf`
converts the image to RGB and returns a buffer positioned at its start that
holds a PDF with exactly one page, carrying the supplied DPI as resolution
metadata. -/
theorem convert_image_to_pdf_single_page_rgb :
    ∀ (e : Entry) (dpi : Int) (img : PILImage),
      e.isDirectory = false → e.content.asImage = some img →
      convert_image_to_pdf e dpi
          = Except.ok { doc := some { image := img.convert_RGB, resolution := dpi }, pos := 0 }
      ∧ img.convert_RGB.mode = ColorMode.RGB
      ∧ ∀ b : BytesIO, convert_image_to_pdf e dpi = Except.ok b →
          PdfReader.ofBuffer b = Except.ok [Page.raster img.convert_RGB dpi] := by
  intro e dpi img hdir himg
  have h1 : convert_image_to_pdf e dpi
      = Except.ok { doc := some { image := img.convert_RGB, resolution := dpi }, pos := 0 } := by
    unfold convert_image_to_pdf Image.open'
    rw [hdir, himg]
    rfl
  refine ⟨h1, rfl, ?_⟩
  intro b hb
  rw [h1] at hb
  injection hb with h
  rw [← h]
  rfl

/-- C6 witness: the concrete RGBA image at DPI 300. -/
theorem convert_image_to_pdf_single_page_rgb_witness :
    convert_image_to_pdf example_img_entry 300
        = Except.ok { doc := some { image := example_image.convert_RGB, resolution := 300 },
                      pos := 0 }
    ∧ example_image.convert_RGB.mode = ColorMode.RGB
    ∧ ∀ b : BytesIO, convert_image_to_pdf example_img_entry 300 = Except.ok b →
        PdfReader.ofBuffer b = Except.ok [Page.raster example_image.convert_RGB 300] :=
  convert_image_to_pdf_single_page_rgb example_img_entry 300 example_image rfl rfl

/-- C7: a directory with no matching entries scans to the empty list, and the
run completes without error, writing a zero-page document and returning the
resolved save path. -/
theorem convert_files_to_pdf_empty_scan :
    ∀ (d : Directory) (sp : SavePath) (dpi : Int),
      (∀ e ∈ d.entries, lower (Path.suffix e.name) ∉ valid_extensions) →
      get_input_files d = []
      ∧ convert_files_to_pdf d sp dpi
          = ([{ path := resolve_save_path d sp, pages := [] }],
              Except.ok (resolve_save_path d sp)) := by
  intro d sp dpi hnone
  have hfil : d.entries.filter matchesExtension = [] := by
    rw [List.filter_eq_nil_iff]
    intro e he
    simp only [matchesExtension, decide_eq_true_eq]
    exact hnone e he
  have hfiles : get_input_files d = [] := by
    unfold get_input_files
    rw [hfil]
    rfl
  refine ⟨hfiles, ?_⟩
  rw [convert_files_to_pdf_eq, hfiles]
  simp [collectPages]

/-- C7 witness: a directory holding only a text file and an extensionless
subdirectory. -/
theorem convert_files_to_pdf_empty_scan_witness :
    get_input_files no_match_dir = []
    ∧ convert_files_to_pdf no_match_dir { path := "out", isDir := true } 300
        = ([{ path := resolve_save_path no_match_dir { path := "out", isDir := true },
              pages := [] }],
            Except.ok (resolve_save_path no_match_dir { path := "out", isDir := true })) :=
  convert_files_to_pdf_empty_scan no_match_dir { path := "out", isDir := true } 300 (by decide)

/-- C8 counterexample: a subdirectory named `sub.pdf` is a directory entry
that DOES appear in the scanner's result, refuting the claim that every
subdirectory is skipped regardless of its apparent extension. -/
theorem get_input_files_subdir_counterexample :
    subdir_pdf.isDirectory = true ∧ subdir_pdf ∈ get_input_files dir_with_subdir :=
  ⟨rfl, by decide⟩

/-- C8 (amended): the scanner filters purely on the lowercased extension and
never on the entry type: an entry — subdirectory or not — is skipped exactly
when its lowercased extension is outside the allow-list, and kept (even if it
is a subdirectory) when the extension matches. -/
theorem get_input_files_extension_only :
    ∀ (d : Directory) (e : Entry), e ∈ d.entries →
      (lower (Path.suffix e.name) ∉ valid_extensions → e ∉ get_input_files d)
      ∧ (lower (Path.suffix e.name) ∈ valid_extensions → e ∈ get_input_files d) := by
  intro d e he
  constructor
  · intro hnot hmem
    exact hnot ((get_input_files_mem d e).mp hmem).2
  · intro hin
    exact (get_input_files_mem d e).mpr ⟨he, hin⟩

/-- C8 witness: the `sub.pdf` subdirectory passes the extension filter and is
returned. -/
theorem get_input_files_extension_only_witness :
    subdir_pdf ∈ get_input_files dir_with_subdir :=
  (get_input_files_extension_only dir_with_subdir subdir_pdf (by decide)).2 (by decide)

/-- C9: `main` prints exactly one line and exits normally in every case: the
success message with the resolved path when the pipeline succeeds, and the
catch-all error message containing the exception's textual description when
any pipeline step raises. -/
theorem main_prints_outcome :
    ∀ (args : Args) (stdin_input stdin_output : String)
      (fsDir : String → Directory) (fsSave : String → SavePath),
      (∀ p : String,
          (convert_files_to_pdf (fsDir (chosen_paths args stdin_input stdin_output).1)
              (fsSave (chosen_paths args stdin_input stdin_output).2) args.dpi).2
            = Except.ok p →
          main args stdin_input stdin_output fsDir fsSave
            = ["PDF created successfully: " ++ p])
      ∧ (∀ e : PipelineError,
          (convert_files_to_pdf (fsDir (chosen_paths args stdin_input stdin_output).1)
              (fsSave (chosen_paths args stdin_input stdin_output).2) args.dpi).2
            = Except.error e →
          main args stdin_input stdin_output fsDir fsSave
            = ["An error occurred: " ++ errorMessage e])
      ∧ ∃ line : String, main args stdin_input stdin_output fsDir fsSave = [line] := by
  intro args si so fsDir fsSave
  have h0 : main args si so fsDir fsSave
      = match convert_files_to_pdf (fsDir (chosen_paths args si so).1)
          (fsSave (chosen_paths args si so).2) args.dpi with
        | (_, Except.ok sp) => ["PDF created successfully: " ++ sp]
        | (_, Except.error e) => ["An error occurred: " ++ errorMessage e] := rfl
  cases hres : convert_files_to_pdf (fsDir (chosen_paths args si so).1)
      (fsSave (chosen_paths args si so).2) args.dpi with
  | mk evs res =>
    rw [hres] at h0
    cases res with
    | ok p0 =>
      have h1 : main args si so fsDir fsSave = ["PDF created successfully: " ++ p0] := h0
      refine ⟨?_, ?_, ⟨_, h1⟩⟩
      · intro p hp
        have hp' : (Except.ok p0 : Except PipelineError String) = Except.ok p := hp
        injection hp' with h
        rw [h1, h]
      · intro e he
        exact Except.noConfusion (he : Except.ok p0 = Except.error e)
    | error e0 =>
      have h1 : main args si so fsDir fsSave = ["An error occurred: " ++ errorMessage e0] := h0
      refine ⟨?_, ?_, ⟨_, h1⟩⟩
      · intro p hp
        exact Except.noConfusion (hp : Except.error e0 = Except.ok p)
      · intro e he
        have he' : (Except.error e0 : Except PipelineError String) = Except.error e := he
        injection he' with h
        rw [h1, h]

/-- C9 witness: a concrete successful CLI invocation with both flags given. -/
theorem main_prints_outcome_witness :
    main { input := some "photos", output := some "out", dpi := 300 } "" ""
        (fun _ => example_dir) (fun _ => { path := "out", isDir := true })
      = ["PDF created successfully: " ++ "out/photos_combined_output.pdf"] :=
  (main_prints_outcome { input := some "photos", output := some "out", dpi := 300 } "" ""
      (fun _ => example_dir) (fun _ => { path := "out", isDir := true })).1
    "out/photos_combined_output.pdf" rfl

/-- C10: the per-file dispatch lowercases the suffix before comparing with
`.pdf`: every entry with lowercased suffix `.pdf` (such as one named `X.PDF`)
is handled by the PDF-reading branch, appending all its pages, and its result
never depends on how the entry would decode as an image. -/
theorem processFile_pdf_dispatch :
    (∀ (w : PdfWriter) (e : Entry) (dpi : Int),
        lower (Path.suffix e.name) = ".pdf" →
        processFile w e dpi
            = Except.map (fun ps => { pages := w.pages ++ ps }) (PdfReader.ofFile e)
          ∧ ∀ imgView : Option PILImage,
              processFile w
                  { name := e.name, isDirectory := e.isDirectory,
                    content := { asImage := imgView,
                                 asPdfPages := e.content.asPdfPages } } dpi
                = processFile w e dpi)
    ∧ lower (Path.suffix "X.PDF") = ".pdf" := by
  refine ⟨?_, by decide⟩
  intro w e dpi hsuf
  have hbranch : ∀ e' : Entry, e'.name = e.name →
      e'.content.asPdfPages = e.content.asPdfPages → e'.isDirectory = e.isDirectory →
      processFile w e' dpi
        = Except.map (fun ps => { pages := w.pages ++ ps }) (PdfReader.ofFile e) := by
    intro e' hn hp hd
    have hof : PdfReader.ofFile e' = PdfReader.ofFile e := by
      unfold PdfReader.ofFile
      rw [hn, hp, hd]
    unfold processFile
    rw [hn, if_pos hsuf, hof]
    cases h2 : PdfReader.ofFile e with
    | error er => simp [Except.map]
    | ok pages => simp [Except.map, foldl_add_page]
  exact ⟨hbranch e rfl rfl rfl,
    fun imgView =>
      (hbranch { name := e.name, isDirectory := e.isDirectory,
                 content := { asImage := imgView, asPdfPages := e.content.asPdfPages } }
        rfl rfl rfl).trans (hbranch e rfl rfl rfl).symm⟩

/-- C10 witness: a file named `X.PDF` goes through the PDF branch even though
its bytes would also decode as an image. -/
theorem processFile_pdf_dispatch_witness :
    processFile { pages := [] } upper_pdf_entry 300
        = Except.map (fun ps => { pages := PdfWriter.pages { pages := [] } ++ ps })
            (PdfReader.ofFile upper_pdf_entry)
    ∧ ∀ imgView : Option PILImage,
        processFile { pages := [] }
            { name := upper_pdf_entry.name, isDirectory := upper_pdf_entry.isDirectory,
              content := { asImage := imgView,
                           asPdfPages := upper_pdf_entry.content.asPdfPages } } 300
          = processFile { pages := [] } upper_pdf_entry 300 :=
  processFile_pdf_dispatch.1 { pages := [] } upper_pdf_entry 300 (by decide)

end CombineFiles
